import Mathlib

/-!
Shallow embedding of `packages/@tinacms/cli/src/next/commands/build-command/index.ts`
(the TinaCMS CLI `build` command) and proofs about its behaviour.

HTTP traffic is modelled by an oracle `Nat → HttpResponse` giving the parsed
response to the n-th request a function issues; request bodies and headers are
modelled structurally.  JavaScript `undefined`/`null` fields are modelled with
`Option`; JS truthiness of a string is `s ≠ ""`.
-/

namespace TinaBuild

/-- A parsed JSON response body, with the fields the build command reads:
`message`, `errors` (modelled as each error's `message` string), `status`,
`timestamp`, and `data` (the GraphQL payload, abstracted as a string).
A field that is absent (`undefined`) is `none`. -/
structure JsonBody where
  message : Option String
  errors : Option (List String)
  status : Option String
  timestamp : Option Nat
  data : Option String
deriving DecidableEq

/-- An HTTP response as seen through `node-fetch`: `ok` is `res.ok`
(true exactly for 2xx), `status` the numeric code, `statusText` its text, and
`json` the parsed body (`none` models a JSON `null` body). -/
structure HttpResponse where
  ok : Bool
  status : Nat
  statusText : String
  json : Option JsonBody
deriving DecidableEq

inductive HttpMethod where
  | get
  | post
deriving DecidableEq

/-- The body of the introspection POST: `JSON.stringify({query, variables: {}})`,
kept structural (the `variables` field is always the empty object). -/
structure GqlPost where
  query : String
deriving DecidableEq

/-- An HTTP request as issued via `fetch`: method, url, header list (in
append order) and optional POST body. -/
structure HttpRequest where
  method : HttpMethod
  url : String
  headers : List (String × String)
  body : Option GqlPost
deriving DecidableEq

/-! ### The `request` helper (source lines 335-379) -/

/-- The authentication hint added for 401/403 responses (line 357). -/
def authHint : String :=
  "Please check that your client ID, URL and read only token are configured properly."

/-- The FAQ link present in every error message of `request` (lines 365, 370). -/
def faqLink : String := "https://tina.io/docs/errors/faq/"

/-- JS template-literal rendering of a possibly-`undefined` string field. -/
def jsUndefOr : Option String → String
  | some s => s
  | none => "undefined"

/-- The `additionalInfo` string as built by `request` (lines 354-361): the auth hint
exactly when the status code is 401 or 403, then, when the body is a non-null
JSON value, `"\n\nMessage from server: " ++ json.message`. -/
def requestAdditionalInfo (status : Nat) (json : Option JsonBody) : String :=
  let a := if status = 401 ∨ status = 403 then authHint else ""
  match json with
  | some j => a ++ "\n\nMessage from server: " ++ jsUndefOr j.message
  | none => a

/-- The message of the error thrown by `request` on a non-2xx response
(lines 362-366).  The source interpolates
`additionalInfo ? additionalInfo : ''`, which is the identity on strings. -/
def requestErrorMessage (status : Nat) (statusText : String) (json : Option JsonBody) : String :=
  let ai := requestAdditionalInfo status json
  "Server responded with status code " ++ toString status ++ ", " ++ statusText ++ ". " ++
    (if ai = "" then "" else ai) ++
    " Please see our FAQ for more information: " ++ faqLink

/-- The message of the error thrown by `request` when a 2xx JSON body carries
an `errors` field (lines 368-374). -/
def requestErrorsMessage (errs : List String) : String :=
  "Unable to fetch, please see our FAQ for more information: " ++ faqLink ++
    "\n\n      Errors: \n\t" ++ String.intercalate "\n" errs

/-- The message a JS runtime raises for `json.errors` when `json` is `null`
(line 368 runs on a 2xx response without guarding against a null body). -/
def nullBodyTypeError : String :=
  "TypeError: Cannot read properties of null (reading 'errors')"

/-- The value `request` resolves with: `{status: json?.status, timestamp: json?.timestamp}`
(lines 375-378). -/
structure RequestOut where
  status : Option String
  timestamp : Option Nat
deriving DecidableEq

/-- The header list built by `request` (lines 339-343): `X-API-KEY` is appended
only when the token is truthy, then `Content-Type`. -/
def requestHeaders (token : String) : List (String × String) :=
  (if token = "" then [] else [("X-API-KEY", token)]) ++
    [("Content-Type", "application/json")]

/-- The GET request issued by `request` (lines 347-351). -/
def requestHttp (token url : String) : HttpRequest :=
  { method := HttpMethod.get
    url := url
    headers := requestHeaders token
    body := none }

/-- The outcome of `request` on a given parsed response (lines 352-378):
throw with `requestErrorMessage` on non-2xx; on 2xx, crash on a null body,
throw with `requestErrorsMessage` when the body has an `errors` field
(any array, in JS even an empty one, is truthy), otherwise resolve with the
`status`/`timestamp` fields. -/
def requestResult (res : HttpResponse) : Except String RequestOut :=
  if res.ok = false then
    Except.error (requestErrorMessage res.status res.statusText res.json)
  else
    match res.json with
    | none => Except.error nullBodyTypeError
    | some j =>
      match j.errors with
      | some errs => Except.error (requestErrorsMessage errs)
      | none => Except.ok ⟨j.status, j.timestamp⟩

/-! ### `fetchRemoteGraphqlSchema` (source lines 381-403) -/

/-- Modelled from the spec: `getIntrospectionQuery()` comes from the external
`graphql` package (not part of this repository's sources); it returns the
standard GraphQL introspection query text, modelled as an abstract constant
that the theorems treat symbolically. -/
def getIntrospectionQuery : String := "IntrospectionQuery"

/-- The header list built by `fetchRemoteGraphqlSchema` (lines 388-394):
its token parameter is optional, `X-API-KEY` is appended only when truthy. -/
def fetchHeaders (token : Option String) : List (String × String) :=
  (match token with
   | some t => if t = "" then [] else [("X-API-KEY", t)]
   | none => []) ++
    [("Content-Type", "application/json")]

/-- The POST request issued by `fetchRemoteGraphqlSchema` (lines 392-400):
the introspection query to the given url. -/
def fetchHttp (token : Option String) (url : String) : HttpRequest :=
  { method := HttpMethod.post
    url := url
    headers := fetchHeaders token
    body := some ⟨getIntrospectionQuery⟩ }

/-- JS optional chaining `o?.f` on a possibly-null object. -/
def jsChain {α β : Type} (o : Option α) (f : α → Option β) : Option β :=
  match o with
  | some x => f x
  | none => none

/-- The function `fetchRemoteGraphqlSchema` (lines 381-403): issues the introspection POST
and returns `data?.data` of the parsed body.  It never inspects `res.ok` or
`res.status` and has no throw path, so its outcome is always `Except.ok`. -/
def fetchRemoteGraphqlSchema (token : Option String) (url : String) (res : HttpResponse) :
    HttpRequest × Except String (Option String) :=
  (fetchHttp token url, Except.ok (jsChain res.json JsonBody.data))

/-! ### `checkClientInfo` (source lines 178-289) -/

/-- The status url built at line 182. -/
def statusUrl (host clientId branch : String) : String :=
  "https://" ++ host ++ "/db/" ++ clientId ++ "/status/" ++ branch

/-- The message of the error thrown at line 288. -/
def branchNotOnTinaCloudMsg : String := "Branch is not on Tina Cloud"

/-- The run of a piece of the command against the HTTP oracle: the outcome,
the list of HTTP requests issued, and the milliseconds of each sleep taken,
all in order. -/
structure Run (α : Type) where
  result : Except String α
  trace : List HttpRequest
  sleeps : List Nat

/-- The polling loop of `checkClientInfo` (lines 234-257): `fuel` iterations
remain, `idx` is the index of the next oracle response.  Each iteration is
`sleepAndCallFunc({fn, ms: 5000})` — modelled from the spec: `sleepAndCallFunc`
(from `utils/sleep`, not among the visible sources) sleeps `ms` milliseconds
and then awaits `fn()`, so a rejection of `fn` propagates.  Inside `fn`, a
non-"unknown" status only executes `return`, which leaves `fn` but not the
loop, so the loop always runs all its iterations unless a request rejects;
when the fuel is exhausted the function throws at line 288 unconditionally. -/
def pollLoop (token url : String) (oracle : Nat → HttpResponse) :
    Nat → Nat → Run Unit
  | _, 0 => ⟨Except.error branchNotOnTinaCloudMsg, [], []⟩
  | idx, fuel + 1 =>
    match requestResult (oracle idx) with
    | Except.error e => ⟨Except.error e, [requestHttp token url], [5000]⟩
    | Except.ok _ =>
      ⟨(pollLoop token url oracle (idx + 1) fuel).result,
       requestHttp token url :: (pollLoop token url oracle (idx + 1) fuel).trace,
       5000 :: (pollLoop token url oracle (idx + 1) fuel).sleeps⟩

/-- The method `checkClientInfo` (lines 178-289): one initial status request (rethrowing
its failure, line 218); return normally when its status is not `'unknown'`
(lines 195-197, 224-229); otherwise poll 6 times (`for i = 0..5`, line 234)
and then throw `'Branch is not on Tina Cloud'` (line 288). -/
def checkClientInfo (token host clientId branch : String)
    (oracle : Nat → HttpResponse) : Run Unit :=
  let url := statusUrl host clientId branch
  let req := requestHttp token url
  match requestResult (oracle 0) with
  | Except.error e => ⟨Except.error e, [req], []⟩
  | Except.ok out =>
    if out.status = some "unknown" then
      let r := pollLoop token url oracle 1 6
      ⟨r.result, req :: r.trace, r.sleeps⟩
    else ⟨Except.ok (), [req], []⟩

/-! ### `checkGraphqlSchema` (source lines 291-330) -/

/-- JS truthiness of a possibly-`undefined` string (`config?.branch`). -/
def jsTruthyStr : Option String → Bool
  | some s => !(s = "")
  | none => false

/-- The error message built at lines 324-327: the base message, extended with
branch and client id when `config?.branch` is truthy. -/
def schemaMismatchMessage (branch : Option String) (clientId : String) : String :=
  let base := "The local GraphQL schema doesn't match the remote GraphQL schema. Please push up your changes to Github to update your remote GraphQL schema."
  if jsTruthyStr branch then
    base ++ "\n\nAdditional info: Branch: " ++ jsUndefOr branch ++ ", Client ID: " ++ clientId ++ " "
  else base

/-- The method `checkGraphqlSchema` (lines 291-330): one introspection POST to the API
url (via `fetchRemoteGraphqlSchema`), then the local and remote schemas are
compared by the external `@graphql-inspector/core` `diff`, whose outcome
`diffResult` is an input here (the schema construction itself is performed by
external libraries); the check throws exactly when `diffResult` is non-empty
(lines 316-329) and issues no further request. -/
def checkGraphqlSchema (token : Option String) (apiURL : String)
    (branch : Option String) (clientId : String) (diffResult : List String) :
    Run Unit :=
  { result :=
      if diffResult.length = 0 then Except.ok ()
      else Except.error (schemaMismatchMessage branch clientId)
    trace := [fetchHttp token apiURL]
    sleeps := [] }

/-! ### The `execute` orchestration (source lines 67-176) and exit codes -/

/-- The steps `execute` runs, in source order (lines 91-125).  `codegen`
stands for `codegen.execute()` (line 113), `writeGitignore` for the
`fs.outputFile` call at lines 122-125. -/
inductive Step where
  | processConfig
  | createDBServer
  | createDatabase
  | buildSchema
  | codegen
  | checkClientInfo
  | waitForDB
  | checkGraphqlSchema
  | buildProductionSpa
  | writeGitignore
deriving DecidableEq

/-- The fixed source order of the steps of `execute`. -/
def stepOrder : List Step :=
  [Step.processConfig, Step.createDBServer, Step.createDatabase,
   Step.buildSchema, Step.codegen, Step.checkClientInfo, Step.waitForDB,
   Step.checkGraphqlSchema, Step.buildProductionSpa, Step.writeGitignore]

/-- Whether each awaited step of `execute` completes without throwing.  The
steps themselves are calls into other modules (config manager, database,
codegen, server) abstracted to their success here; the command's control flow
over them is what is embedded. -/
structure Env where
  processConfigOk : Bool
  createDBServerOk : Bool
  createDatabaseOk : Bool
  buildSchemaOk : Bool
  codegenOk : Bool
  checkClientInfoOk : Bool
  waitForDBOk : Bool
  checkGraphqlSchemaOk : Bool
  buildProductionSpaOk : Bool
deriving DecidableEq

/-- All steps of the run succeed. -/
def Env.allOk (e : Env) : Bool :=
  e.processConfigOk && e.createDBServerOk && e.createDatabaseOk &&
    e.buildSchemaOk && e.codegenOk && e.checkClientInfoOk && e.waitForDBOk &&
    e.checkGraphqlSchemaOk && e.buildProductionSpaOk

/-- The content written to the output `.gitignore` (line 124). -/
def gitignoreContent : String := "index.html\nassets/"

/-- The observable outcome of one run of the `build` command: the process
exit code, the steps that were started, and the files written by `execute`
itself (path, content). -/
structure ExecResult where
  exit : Nat
  trace : List Step
  writes : List (String × String)
deriving DecidableEq

/-- The control flow of `execute` (lines 67-176) together with the command
boundary: a failure of `processConfig` is caught at lines 93-97 and exits
with code 1; an exception from any later step propagates out of `execute` to
`BuildCommand.catch` (lines 62-65), which exits with code 1; when every step
succeeds, `execute` writes the output `.gitignore` (lines 122-125) and ends
with `process.exit()` (line 175), i.e. exit code 0. -/
def execute (gitignorePath : String) (env : Env) : ExecResult :=
  if env.processConfigOk = false then ⟨1, [Step.processConfig], []⟩
  else if env.createDBServerOk = false then
    ⟨1, [Step.processConfig, Step.createDBServer], []⟩
  else if env.createDatabaseOk = false then
    ⟨1, [Step.processConfig, Step.createDBServer, Step.createDatabase], []⟩
  else if env.buildSchemaOk = false then
    ⟨1, [Step.processConfig, Step.createDBServer, Step.createDatabase,
         Step.buildSchema], []⟩
  else if env.codegenOk = false then
    ⟨1, [Step.processConfig, Step.createDBServer, Step.createDatabase,
         Step.buildSchema, Step.codegen], []⟩
  else if env.checkClientInfoOk = false then
    ⟨1, [Step.processConfig, Step.createDBServer, Step.createDatabase,
         Step.buildSchema, Step.codegen, Step.checkClientInfo], []⟩
  else if env.waitForDBOk = false then
    ⟨1, [Step.processConfig, Step.createDBServer, Step.createDatabase,
         Step.buildSchema, Step.codegen, Step.checkClientInfo,
         Step.waitForDB], []⟩
  else if env.checkGraphqlSchemaOk = false then
    ⟨1, [Step.processConfig, Step.createDBServer, Step.createDatabase,
         Step.buildSchema, Step.codegen, Step.checkClientInfo,
         Step.waitForDB, Step.checkGraphqlSchema], []⟩
  else if env.buildProductionSpaOk = false then
    ⟨1, [Step.processConfig, Step.createDBServer, Step.createDatabase,
         Step.buildSchema, Step.codegen, Step.checkClientInfo,
         Step.waitForDB, Step.checkGraphqlSchema, Step.buildProductionSpa], []⟩
  else ⟨0, stepOrder, [(gitignorePath, gitignoreContent)]⟩

/-! ### The `--datalayer-port` flag (source lines 35-38 and 100) -/

/-- The default of the `--datalayer-port` option (line 35): the string
`'9000'`. -/
def datalayerPortDefault : String := "9000"

/-- The value of `this.datalayerPort`: the flag when supplied, else the
default. -/
def datalayerPort (flag : Option String) : String :=
  match flag with
  | some s => s
  | none => datalayerPortDefault

/-- JS `Number(s)` on a string, modelled on canonical decimal numerals
(`none` models `NaN` on non-numeric input). -/
def jsNumber (s : String) : Option Nat :=
  if s.data ≠ [] ∧ s.data.all Char.isDigit then
    some (s.data.foldl (fun n c => n * 10 + (c.toNat - 48)) 0)
  else none

/-- The argument of `createDBServer(Number(this.datalayerPort))` at
line 100. -/
def createDBServerArg (flag : Option String) : Option Nat :=
  jsNumber (datalayerPort flag)

/-! ## Theorems -/

/-- A 2xx status response whose body reports the indexing status `"unknown"`. -/
def unknownStatusResp : HttpResponse :=
  ⟨true, 200, "OK", some ⟨none, none, some "unknown", some 0, none⟩⟩

/-- A 2xx status response whose body reports the indexing status `"success"`. -/
def successStatusResp : HttpResponse :=
  ⟨true, 200, "OK", some ⟨none, none, some "success", some 1, none⟩⟩

/-- An oracle whose initial status response is `"unknown"` and whose every
poll thereafter answers `"success"`. -/
def pollBugOracle : Nat → HttpResponse :=
  fun i => if i = 0 then unknownStatusResp else successStatusResp

/-- C1: evaluation of `checkClientInfo` at the failing input.  The claim says
the command returns normally as soon as some poll returns a status other than
`"unknown"`, and throws if and only if the status is still `"unknown"` after
all polls.  The code disagrees: the `return` inside the poll callback exits
only the callback, never the `for` loop, so after an initial `"unknown"` the
function performs all 6 polls and then always throws
`'Branch is not on Tina Cloud'` — here even though every poll after the first
request answers `"success"`. -/
theorem checkClientInfo_throws_despite_known_poll :
    requestResult successStatusResp = Except.ok ⟨some "success", some 1⟩ ∧
    (checkClientInfo "tok" "content.tinajs.io" "clientid" "main" pollBugOracle).result
      = Except.error branchNotOnTinaCloudMsg ∧
    (checkClientInfo "tok" "content.tinajs.io" "clientid" "main" pollBugOracle).trace.length
      = 7 ∧
    (checkClientInfo "tok" "content.tinajs.io" "clientid" "main" pollBugOracle).sleeps
      = [5000, 5000, 5000, 5000, 5000, 5000] :=
  ⟨rfl, rfl, rfl, rfl⟩

/-- C2: `checkGraphqlSchema` returns normally exactly when the schema diff is
empty, throws (with the mismatch message) exactly when the diff is non-empty,
and issues exactly one introspection request — there is no retry. -/
theorem checkGraphqlSchema_diff_iff (token : Option String) (apiURL : String)
    (branch : Option String) (clientId : String) (diffResult : List String) :
    ((checkGraphqlSchema token apiURL branch clientId diffResult).result = Except.ok ()
      ↔ diffResult.length = 0) ∧
    ((∃ m, (checkGraphqlSchema token apiURL branch clientId diffResult).result
        = Except.error m) ↔ 0 < diffResult.length) ∧
    (checkGraphqlSchema token apiURL branch clientId diffResult).trace
      = [fetchHttp token apiURL] := by
  by_cases h : diffResult.length = 0
  · simp [checkGraphqlSchema, h]
  · simp [checkGraphqlSchema, h]
    exact Nat.pos_of_ne_zero h

/-- C6: when `--datalayer-port` is not supplied the option defaults to the
string `'9000'`, and `createDBServer` is invoked with the number 9000. -/
theorem datalayerPort_default_9000 :
    datalayerPort none = "9000" ∧ createDBServerArg none = some 9000 :=
  ⟨rfl, rfl⟩

/-- C3: the build command exits with code 0 exactly when every step succeeds,
and with code 1 whenever some step throws an error that reaches the command
boundary (the `processConfig` catch or `BuildCommand.catch`). -/
theorem execute_exit_code (path : String) (env : Env) :
    (env.allOk = true → (execute path env).exit = 0) ∧
    (env.allOk = false → (execute path env).exit = 1) := by
  obtain ⟨a, b, c, d, e, f, g, h, i⟩ := env
  cases a <;> cases b <;> cases c <;> cases d <;> cases e <;> cases f <;>
    cases g <;> cases h <;> cases i <;>
      simp [execute, Env.allOk]

/-- Witness for `execute_exit_code`: a run in which every step succeeds exits
with code 0, and a run whose schema check fails exits with code 1. -/
theorem execute_exit_code_witness :
    (execute "p" ⟨true, true, true, true, true, true, true, true, true⟩).exit = 0 ∧
    (execute "p" ⟨true, true, true, true, true, true, true, false, true⟩).exit = 1 :=
  ⟨(execute_exit_code "p" ⟨true, true, true, true, true, true, true, true, true⟩).1 rfl,
   (execute_exit_code "p" ⟨true, true, true, true, true, true, true, false, true⟩).2 rfl⟩

/-- C4: `execute` performs its steps in the fixed source order (the executed
trace is an initial segment of `stepOrder`), and each later step starts only
when every earlier step completed without error. -/
theorem execute_step_order (path : String) (env : Env) :
    ((execute path env).trace
      = stepOrder.take (execute path env).trace.length) ∧
    (Step.buildSchema ∈ (execute path env).trace →
      env.processConfigOk = true ∧ env.createDBServerOk = true ∧
      env.createDatabaseOk = true) ∧
    (Step.codegen ∈ (execute path env).trace →
      env.processConfigOk = true ∧ env.createDBServerOk = true ∧
      env.createDatabaseOk = true ∧ env.buildSchemaOk = true) ∧
    (Step.checkClientInfo ∈ (execute path env).trace →
      env.processConfigOk = true ∧ env.createDBServerOk = true ∧
      env.createDatabaseOk = true ∧ env.buildSchemaOk = true ∧
      env.codegenOk = true) ∧
    (Step.waitForDB ∈ (execute path env).trace →
      env.processConfigOk = true ∧ env.createDBServerOk = true ∧
      env.createDatabaseOk = true ∧ env.buildSchemaOk = true ∧
      env.codegenOk = true ∧ env.checkClientInfoOk = true) ∧
    (Step.checkGraphqlSchema ∈ (execute path env).trace →
      env.processConfigOk = true ∧ env.createDBServerOk = true ∧
      env.createDatabaseOk = true ∧ env.buildSchemaOk = true ∧
      env.codegenOk = true ∧ env.checkClientInfoOk = true ∧
      env.waitForDBOk = true) ∧
    (Step.buildProductionSpa ∈ (execute path env).trace →
      env.processConfigOk = true ∧ env.createDBServerOk = true ∧
      env.createDatabaseOk = true ∧ env.buildSchemaOk = true ∧
      env.codegenOk = true ∧ env.checkClientInfoOk = true ∧
      env.waitForDBOk = true ∧ env.checkGraphqlSchemaOk = true) := by
  obtain ⟨a, b, c, d, e, f, g, h, i⟩ := env
  cases a with
  | false =>
    have ht : (execute path ⟨false, b, c, d, e, f, g, h, i⟩).trace
        = [Step.processConfig] := rfl
    rw [ht]
    exact ⟨rfl, by simp, by simp, by simp, by simp, by simp, by simp⟩
  | true =>
  cases b with
  | false =>
    have ht : (execute path ⟨true, false, c, d, e, f, g, h, i⟩).trace
        = [Step.processConfig, Step.createDBServer] := rfl
    rw [ht]
    exact ⟨rfl, by simp, by simp, by simp, by simp, by simp, by simp⟩
  | true =>
  cases c with
  | false =>
    have ht : (execute path ⟨true, true, false, d, e, f, g, h, i⟩).trace
        = [Step.processConfig, Step.createDBServer, Step.createDatabase] := rfl
    rw [ht]
    exact ⟨rfl, by simp, by simp, by simp, by simp, by simp, by simp⟩
  | true =>
  cases d with
  | false =>
    have ht : (execute path ⟨true, true, true, false, e, f, g, h, i⟩).trace
        = [Step.processConfig, Step.createDBServer, Step.createDatabase,
           Step.buildSchema] := rfl
    rw [ht]
    exact ⟨rfl, by simp, by simp, by simp, by simp, by simp, by simp⟩
  | true =>
  cases e with
  | false =>
    have ht : (execute path ⟨true, true, true, true, false, f, g, h, i⟩).trace
        = [Step.processConfig, Step.createDBServer, Step.createDatabase,
           Step.buildSchema, Step.codegen] := rfl
    rw [ht]
    exact ⟨rfl, by simp, by simp, by simp, by simp, by simp, by simp⟩
  | true =>
  cases f with
  | false =>
    have ht : (execute path ⟨true, true, true, true, true, false, g, h, i⟩).trace
        = [Step.processConfig, Step.createDBServer, Step.createDatabase,
           Step.buildSchema, Step.codegen, Step.checkClientInfo] := rfl
    rw [ht]
    exact ⟨rfl, by simp, by simp, by simp, by simp, by simp, by simp⟩
  | true =>
  cases g with
  | false =>
    have ht : (execute path ⟨true, true, true, true, true, true, false, h, i⟩).trace
        = [Step.processConfig, Step.createDBServer, Step.createDatabase,
           Step.buildSchema, Step.codegen, Step.checkClientInfo,
           Step.waitForDB] := rfl
    rw [ht]
    exact ⟨rfl, by simp, by simp, by simp, by simp, by simp, by simp⟩
  | true =>
  cases h with
  | false =>
    have ht : (execute path ⟨true, true, true, true, true, true, true, false, i⟩).trace
        = [Step.processConfig, Step.createDBServer, Step.createDatabase,
           Step.buildSchema, Step.codegen, Step.checkClientInfo,
           Step.waitForDB, Step.checkGraphqlSchema] := rfl
    rw [ht]
    exact ⟨rfl, by simp, by simp, by simp, by simp, by simp, by simp⟩
  | true =>
  cases i with
  | false =>
    have ht : (execute path ⟨true, true, true, true, true, true, true, true, false⟩).trace
        = [Step.processConfig, Step.createDBServer, Step.createDatabase,
           Step.buildSchema, Step.codegen, Step.checkClientInfo,
           Step.waitForDB, Step.checkGraphqlSchema, Step.buildProductionSpa] := rfl
    rw [ht]
    exact ⟨rfl, by simp, by simp, by simp, by simp, by simp, by simp⟩
  | true =>
    have ht : (execute path ⟨true, true, true, true, true, true, true, true, true⟩).trace
        = stepOrder := rfl
    rw [ht]
    exact ⟨rfl, by simp [stepOrder], by simp [stepOrder], by simp [stepOrder],
      by simp [stepOrder], by simp [stepOrder], by simp [stepOrder]⟩

/-- Witness for `execute_step_order`: in a fully successful run, the static
site build step is reached, hence every remote check succeeded. -/
theorem execute_step_order_witness :
    Step.buildProductionSpa ∈
        (execute "p" ⟨true, true, true, true, true, true, true, true, true⟩).trace ∧
    (⟨true, true, true, true, true, true, true, true, true⟩ : Env).checkGraphqlSchemaOk
      = true :=
  ⟨by decide,
   ((execute_step_order "p" ⟨true, true, true, true, true, true, true, true, true⟩).2.2.2.2.2.2
      (by decide)).2.2.2.2.2.2.2⟩

/-- C7: on every successful build the configured output `.gitignore` file is
written with exactly the content `index.html\nassets/` and nothing else is
written by `execute`. -/
theorem execute_writes_gitignore (path : String) (env : Env)
    (h : env.allOk = true) :
    (execute path env).writes = [(path, "index.html\nassets/")] := by
  obtain ⟨a, b, c, d, e, f, g, hh, i⟩ := env
  cases a <;> cases b <;> cases c <;> cases d <;> cases e <;> cases f <;>
    cases g <;> cases hh <;> cases i <;>
      first
        | rfl
        | simp [Env.allOk] at h

/-- Witness for `execute_writes_gitignore` at a concrete path and a fully
successful run. -/
theorem execute_writes_gitignore_witness :
    (execute "tina/.gitignore"
        ⟨true, true, true, true, true, true, true, true, true⟩).writes
      = [("tina/.gitignore", "index.html\nassets/")] :=
  execute_writes_gitignore "tina/.gitignore"
    ⟨true, true, true, true, true, true, true, true, true⟩ (by decide)

/-- C10: when any of the remote checks (`checkClientInfo`, `waitForDB`,
`checkGraphqlSchema`) throws, the static site build step is never started and
the output `.gitignore` is not written. -/
theorem remote_check_failure_no_artifacts (path : String) (env : Env)
    (h : env.checkClientInfoOk = false ∨ env.waitForDBOk = false ∨
      env.checkGraphqlSchemaOk = false) :
    Step.buildProductionSpa ∉ (execute path env).trace ∧
    (execute path env).writes = [] := by
  obtain ⟨a, b, c, d, e, f, g, hh, i⟩ := env
  rcases h with h | h | h
  · subst h
    cases a <;> cases b <;> cases c <;> cases d <;> cases e <;> cases g <;>
      cases hh <;> cases i <;> exact ⟨by simp [execute], rfl⟩
  · subst h
    cases a <;> cases b <;> cases c <;> cases d <;> cases e <;> cases f <;>
      cases hh <;> cases i <;> exact ⟨by simp [execute], rfl⟩
  · subst h
    cases a <;> cases b <;> cases c <;> cases d <;> cases e <;> cases f <;>
      cases g <;> cases i <;> exact ⟨by simp [execute], rfl⟩

/-- Witness for `remote_check_failure_no_artifacts`: a run whose branch check
fails writes no file. -/
theorem remote_check_failure_no_artifacts_witness :
    (execute "p" ⟨true, true, true, true, true, false, true, true, true⟩).writes = [] :=
  (remote_check_failure_no_artifacts "p"
    ⟨true, true, true, true, true, false, true, true, true⟩ (Or.inl rfl)).2

/-- Every request issued by the polling loop is the same GET status request. -/
theorem pollLoop_trace_all (token url : String) (oracle : Nat → HttpResponse) :
    ∀ fuel idx, ∀ r ∈ (pollLoop token url oracle idx fuel).trace,
      r = requestHttp token url := by
  intro fuel
  induction fuel with
  | zero =>
    intro idx r hr
    simp [pollLoop] at hr
  | succ n ih =>
    intro idx r hr
    simp only [pollLoop] at hr
    split at hr
    · simp at hr
      exact hr
    · simp at hr
      rcases hr with hr | hr
      · exact hr
      · exact ih (idx + 1) r hr

/-- Every request issued by `checkClientInfo` is the same GET status
request. -/
theorem checkClientInfo_trace_all (token host clientId branch : String)
    (oracle : Nat → HttpResponse) :
    ∀ r ∈ (checkClientInfo token host clientId branch oracle).trace,
      r = requestHttp token (statusUrl host clientId branch) := by
  intro r hr
  simp only [checkClientInfo] at hr
  split at hr
  · simp at hr
    exact hr
  · split at hr
    · simp at hr
      rcases hr with hr | hr
      · exact hr
      · exact pollLoop_trace_all token (statusUrl host clientId branch) oracle 6 1 r hr
    · simp at hr
      exact hr

/-- C5: every status request of `checkClientInfo` is an HTTP GET to exactly
`https://{host}/db/{clientId}/status/{branch}` carrying the configured token
in the `X-API-KEY` request header, and the schema check issues a POST of the
GraphQL introspection query to the configured API url. -/
theorem http_request_shapes (token host clientId branch : String)
    (oracle : Nat → HttpResponse) (tok : Option String) (apiURL : String)
    (cfgBranch : Option String) (cfgClientId : String) (diffResult : List String)
    (htok : token ≠ "") :
    (∀ r ∈ (checkClientInfo token host clientId branch oracle).trace,
      r.method = HttpMethod.get ∧
      r.url = "https://" ++ host ++ "/db/" ++ clientId ++ "/status/" ++ branch ∧
      ("X-API-KEY", token) ∈ r.headers) ∧
    (checkGraphqlSchema tok apiURL cfgBranch cfgClientId diffResult).trace
      = [fetchHttp tok apiURL] ∧
    (fetchHttp tok apiURL).method = HttpMethod.post ∧
    (fetchHttp tok apiURL).url = apiURL ∧
    (fetchHttp tok apiURL).body = some ⟨getIntrospectionQuery⟩ := by
  refine ⟨?_, rfl, rfl, rfl, rfl⟩
  intro r hr
  have hreq := checkClientInfo_trace_all token host clientId branch oracle r hr
  subst hreq
  refine ⟨rfl, rfl, ?_⟩
  simp [requestHttp, requestHeaders, htok]

/-- Witness for `http_request_shapes` at a concrete configuration: the status
requests of `checkClientInfo` and the introspection POST of the schema check
have the claimed shapes. -/
theorem http_request_shapes_witness :
    (checkGraphqlSchema (some "tok") "https://content.tinajs.io/content/c1/github/main"
        none "c1" []).trace
      = [fetchHttp (some "tok") "https://content.tinajs.io/content/c1/github/main"] ∧
    (fetchHttp (some "tok") "https://content.tinajs.io/content/c1/github/main").method
      = HttpMethod.post ∧
    (fetchHttp (some "tok") "https://content.tinajs.io/content/c1/github/main").url
      = "https://content.tinajs.io/content/c1/github/main" ∧
    (fetchHttp (some "tok") "https://content.tinajs.io/content/c1/github/main").body
      = some ⟨getIntrospectionQuery⟩ :=
  (http_request_shapes "tok" "content.tinajs.io" "c1" "main"
    (fun _ => ⟨true, 200, "OK", none⟩) (some "tok")
    "https://content.tinajs.io/content/c1/github/main" none "c1" []
    (by decide)).2

/-- C8: `fetchRemoteGraphqlSchema` has no throw path: it resolves with the
`data` field of the parsed JSON body (`none` when absent), its outcome is
independent of the response status, while the status helper `request` throws
on every non-2xx response. -/
theorem fetchRemoteGraphqlSchema_never_throws (tok : Option String) (url : String)
    (res : HttpResponse) :
    (fetchRemoteGraphqlSchema tok url res).2
      = Except.ok (jsChain res.json JsonBody.data) ∧
    (∀ b n st, (fetchRemoteGraphqlSchema tok url ⟨b, n, st, res.json⟩).2
      = (fetchRemoteGraphqlSchema tok url res).2) ∧
    (res.ok = false →
      requestResult res
        = Except.error (requestErrorMessage res.status res.statusText res.json)) := by
  refine ⟨rfl, fun b n st => rfl, fun h => ?_⟩
  simp [requestResult, h]

/-- Witness for `fetchRemoteGraphqlSchema_never_throws` at a concrete non-2xx
response with a null body: the schema fetch resolves with `none` while
`request` would throw. -/
theorem fetchRemoteGraphqlSchema_never_throws_witness :
    (fetchRemoteGraphqlSchema none "u" ⟨false, 500, "Internal Server Error", none⟩).2
      = Except.ok none ∧
    requestResult ⟨false, 500, "Internal Server Error", none⟩
      = Except.error (requestErrorMessage 500 "Internal Server Error" none) :=
  ⟨(fetchRemoteGraphqlSchema_never_throws none "u"
      ⟨false, 500, "Internal Server Error", none⟩).1,
   (fetchRemoteGraphqlSchema_never_throws none "u"
      ⟨false, 500, "Internal Server Error", none⟩).2.2 rfl⟩

/-- The `additionalInfo` component when the status is 401 or 403: it starts
with the authentication hint. -/
theorem requestAdditionalInfo_of_auth (status : Nat) (json : Option JsonBody)
    (h : status = 401 ∨ status = 403) :
    requestAdditionalInfo status json
      = match json with
        | some j => (authHint ++ "\n\nMessage from server: ") ++ jsUndefOr j.message
        | none => authHint := by
  cases json with
  | none => exact if_pos h
  | some j =>
    show (if status = 401 ∨ status = 403 then authHint else "")
        ++ "\n\nMessage from server: " ++ jsUndefOr j.message = _
    rw [if_pos h]

/-- The `additionalInfo` component when the status is neither 401 nor 403: the
authentication hint is not inserted. -/
theorem requestAdditionalInfo_of_other (status : Nat) (json : Option JsonBody)
    (h : ¬(status = 401 ∨ status = 403)) :
    requestAdditionalInfo status json
      = match json with
        | some j => "\n\nMessage from server: " ++ jsUndefOr j.message
        | none => "" := by
  cases json with
  | none => exact if_neg h
  | some j =>
    show (if status = 401 ∨ status = 403 then authHint else "")
        ++ "\n\nMessage from server: " ++ jsUndefOr j.message = _
    rw [if_neg h, String.empty_append]

/-- C9: on every non-2xx response `request` throws with a message that ends
with the FAQ link, contains the authentication hint when the status is 401 or
403, and omits it (the `additionalInfo` component is just the server-message
part) otherwise; on a 2xx response whose JSON body carries a non-empty
`errors` field, `request` also throws. -/
theorem request_error_message_shape :
    (∀ res : HttpResponse, res.ok = false →
      requestResult res
        = Except.error (requestErrorMessage res.status res.statusText res.json) ∧
      (∃ a, requestErrorMessage res.status res.statusText res.json
        = a ++ faqLink) ∧
      ((res.status = 401 ∨ res.status = 403) →
        ∃ a b, requestErrorMessage res.status res.statusText res.json
          = a ++ authHint ++ b) ∧
      (¬(res.status = 401 ∨ res.status = 403) →
        requestAdditionalInfo res.status res.json
          = match res.json with
            | some j => "\n\nMessage from server: " ++ jsUndefOr j.message
            | none => "")) ∧
    (∀ (res : HttpResponse) (j : JsonBody) (errs : List String),
      res.ok = true → res.json = some j → j.errors = some errs → errs ≠ [] →
      requestResult res = Except.error (requestErrorsMessage errs)) := by
  constructor
  · intro res hok
    refine ⟨by simp [requestResult, hok], ⟨_, rfl⟩, ?_, ?_⟩
    · intro h401
      have hpos : 0 < authHint.length := by decide
      have hne : requestAdditionalInfo res.status res.json ≠ "" := by
        rw [requestAdditionalInfo_of_auth res.status res.json h401]
        cases hj : res.json with
        | none => decide
        | some j =>
          intro hc
          have hlen := congrArg String.length hc
          simp only [String.length_append] at hlen
          have h0 : String.length "" = 0 := rfl
          omega
      have hmsg : requestErrorMessage res.status res.statusText res.json
          = (("Server responded with status code " ++ toString res.status ++ ", "
              ++ res.statusText ++ ". ")
            ++ requestAdditionalInfo res.status res.json)
            ++ " Please see our FAQ for more information: " ++ faqLink := by
        simp only [requestErrorMessage]
        rw [if_neg hne]
      rw [requestAdditionalInfo_of_auth res.status res.json h401] at hmsg
      cases hj : res.json with
      | none =>
        rw [hj] at hmsg
        refine ⟨"Server responded with status code " ++ toString res.status ++ ", "
            ++ res.statusText ++ ". ",
          " Please see our FAQ for more information: " ++ faqLink, ?_⟩
        rw [hmsg]
        simp only [String.append_assoc]
      | some j =>
        rw [hj] at hmsg
        refine ⟨"Server responded with status code " ++ toString res.status ++ ", "
            ++ res.statusText ++ ". ",
          "\n\nMessage from server: " ++ jsUndefOr j.message
            ++ (" Please see our FAQ for more information: " ++ faqLink), ?_⟩
        rw [hmsg]
        simp only [String.append_assoc]
    · intro hother
      exact requestAdditionalInfo_of_other res.status res.json hother
  · intro res j errs hok hj he hne
    simp [requestResult, hok, hj, he]

/-- Witness for `request_error_message_shape`: a 404 response throws with the
code's message and no authentication hint component, and a 2xx response with
an `errors` field throws the errors message. -/
theorem request_error_message_shape_witness :
    requestResult ⟨false, 404, "Not Found", none⟩
      = Except.error (requestErrorMessage 404 "Not Found" none) ∧
    requestAdditionalInfo 404 none = "" ∧
    requestResult ⟨true, 200, "OK", some ⟨none, some ["boom"], none, none, none⟩⟩
      = Except.error (requestErrorsMessage ["boom"]) :=
  ⟨(request_error_message_shape.1 ⟨false, 404, "Not Found", none⟩ rfl).1,
   (request_error_message_shape.1 ⟨false, 404, "Not Found", none⟩ rfl).2.2.2 (by decide),
   request_error_message_shape.2
     ⟨true, 200, "OK", some ⟨none, some ["boom"], none, none, none⟩⟩
     ⟨none, some ["boom"], none, none, none⟩ ["boom"] rfl rfl rfl (by decide)⟩

end TinaBuild
